import Mathlib

/-!
Plugin registration of the Windows runner.

A shallow embedding of `windows/flutter/generated_plugin_registrant.cc`.

The file defines one function, `RegisterPlugins`, a straight line of eleven
statements `XRegisterWithRegistrar(registry->GetRegistrarForPlugin("X"))`.
Both the registry and the eleven register functions are external to the file,
so they are parameters of the embedding: a registry is any implementation of
`GetRegistrarForPlugin` over a host state, and the register functions are any
state transformers.  Every call that crosses the boundary of the file is
recorded in a trace, in the order in which it is made.
-/

namespace FlightLog

/-- The handle `FlutterDesktopPluginRegistrarRef`, a pointer, kept as its
address; the address `0` is the null pointer. -/
abbrev FlutterDesktopPluginRegistrarRef := Nat

/-- The eleven external functions called by `RegisterPlugins`, declared by the
plugin headers included at lines 9 to 19 of the source. -/
inductive RegisterFn where
  | AmplifyDbCommonPluginRegisterWithRegistrar
  | CloudFirestorePluginCApiRegisterWithRegistrar
  | ConnectivityPlusWindowsPluginRegisterWithRegistrar
  | FirebaseAuthPluginCApiRegisterWithRegistrar
  | FirebaseCorePluginCApiRegisterWithRegistrar
  | FirebaseStoragePluginCApiRegisterWithRegistrar
  | FlutterTimezonePluginCApiRegisterWithRegistrar
  | GeolocatorWindowsRegisterWithRegistrar
  | PermissionHandlerWindowsPluginRegisterWithRegistrar
  | SharePlusWindowsPluginCApiRegisterWithRegistrar
  | UrlLauncherWindowsRegisterWithRegistrar
  deriving DecidableEq, Repr

/-- The identifier of a register function, as it is spelled in the source. -/
def RegisterFn.ident : RegisterFn → String
  | .AmplifyDbCommonPluginRegisterWithRegistrar =>
      "AmplifyDbCommonPluginRegisterWithRegistrar"
  | .CloudFirestorePluginCApiRegisterWithRegistrar =>
      "CloudFirestorePluginCApiRegisterWithRegistrar"
  | .ConnectivityPlusWindowsPluginRegisterWithRegistrar =>
      "ConnectivityPlusWindowsPluginRegisterWithRegistrar"
  | .FirebaseAuthPluginCApiRegisterWithRegistrar =>
      "FirebaseAuthPluginCApiRegisterWithRegistrar"
  | .FirebaseCorePluginCApiRegisterWithRegistrar =>
      "FirebaseCorePluginCApiRegisterWithRegistrar"
  | .FirebaseStoragePluginCApiRegisterWithRegistrar =>
      "FirebaseStoragePluginCApiRegisterWithRegistrar"
  | .FlutterTimezonePluginCApiRegisterWithRegistrar =>
      "FlutterTimezonePluginCApiRegisterWithRegistrar"
  | .GeolocatorWindowsRegisterWithRegistrar =>
      "GeolocatorWindowsRegisterWithRegistrar"
  | .PermissionHandlerWindowsPluginRegisterWithRegistrar =>
      "PermissionHandlerWindowsPluginRegisterWithRegistrar"
  | .SharePlusWindowsPluginCApiRegisterWithRegistrar =>
      "SharePlusWindowsPluginCApiRegisterWithRegistrar"
  | .UrlLauncherWindowsRegisterWithRegistrar =>
      "UrlLauncherWindowsRegisterWithRegistrar"

/-- One call that leaves the file.  A request to the registry is recorded with
the name asked for and the handle the registry returned; a call of a register
function is recorded with the function and the handle it was given. -/
inductive Event where
  | GetRegistrarForPlugin (name : String)
      (returned : FlutterDesktopPluginRegistrarRef)
  | Register (fn : RegisterFn) (registrar : FlutterDesktopPluginRegistrarRef)
  deriving DecidableEq, Repr

/-- A call without the handle values: which registry request or which register
function, nothing else. -/
inductive Call where
  | GetRegistrarForPlugin (name : String)
  | Register (fn : RegisterFn)
  deriving DecidableEq, Repr

/-- Forget the handle carried by an event. -/
def Event.call : Event → Call
  | .GetRegistrarForPlugin name _ => .GetRegistrarForPlugin name
  | .Register fn _ => .Register fn

/-- The name of a registry request, nothing for a register call. -/
def Event.requested : Event → Option String
  | .GetRegistrarForPlugin name _ => some name
  | .Register _ _ => none

/-- The function of a register call, nothing for a registry request. -/
def Event.registered : Event → Option RegisterFn
  | .GetRegistrarForPlugin _ _ => none
  | .Register fn _ => some fn

/-- The object behind `flutter::PluginRegistry*`: its virtual method
`GetRegistrarForPlugin`, which may read and change the host state `σ` and
returns whatever handle it likes, null included. -/
structure PluginRegistry (σ : Type) where
  impl : String → σ → FlutterDesktopPluginRegistrarRef × σ

/-- The behaviour of the eleven external register functions on the host
state. -/
abbrev Externals (σ : Type) :=
  RegisterFn → FlutterDesktopPluginRegistrarRef → σ → σ

/-- The host state together with the calls made so far, oldest first. -/
structure World (σ : Type) where
  host : σ
  trace : List Event

/-- Statements of the file: state passing over the world. -/
abbrev Exec (σ : Type) (α : Type) := StateM (World σ) α

/-- The call `registry->GetRegistrarForPlugin(name)`. -/
def PluginRegistry.GetRegistrarForPlugin {σ : Type} (registry : PluginRegistry σ)
    (name : String) : Exec σ FlutterDesktopPluginRegistrarRef :=
  fun w =>
    let res := registry.impl name w.host
    (res.1, { host := res.2, trace := w.trace ++ [Event.GetRegistrarForPlugin name res.1] })

/-- The call `fn(registrar)` of an external register function. -/
def Externals.invoke {σ : Type} (ext : Externals σ) (fn : RegisterFn)
    (registrar : FlutterDesktopPluginRegistrarRef) : Exec σ Unit :=
  fun w =>
    ((), { host := ext fn registrar w.host, trace := w.trace ++ [Event.Register fn registrar] })

section Registrant

variable {σ : Type} (ext : Externals σ)

def AmplifyDbCommonPluginRegisterWithRegistrar :=
  ext.invoke .AmplifyDbCommonPluginRegisterWithRegistrar

def CloudFirestorePluginCApiRegisterWithRegistrar :=
  ext.invoke .CloudFirestorePluginCApiRegisterWithRegistrar

def ConnectivityPlusWindowsPluginRegisterWithRegistrar :=
  ext.invoke .ConnectivityPlusWindowsPluginRegisterWithRegistrar

def FirebaseAuthPluginCApiRegisterWithRegistrar :=
  ext.invoke .FirebaseAuthPluginCApiRegisterWithRegistrar

def FirebaseCorePluginCApiRegisterWithRegistrar :=
  ext.invoke .FirebaseCorePluginCApiRegisterWithRegistrar

def FirebaseStoragePluginCApiRegisterWithRegistrar :=
  ext.invoke .FirebaseStoragePluginCApiRegisterWithRegistrar

def FlutterTimezonePluginCApiRegisterWithRegistrar :=
  ext.invoke .FlutterTimezonePluginCApiRegisterWithRegistrar

def GeolocatorWindowsRegisterWithRegistrar :=
  ext.invoke .GeolocatorWindowsRegisterWithRegistrar

def PermissionHandlerWindowsPluginRegisterWithRegistrar :=
  ext.invoke .PermissionHandlerWindowsPluginRegisterWithRegistrar

def SharePlusWindowsPluginCApiRegisterWithRegistrar :=
  ext.invoke .SharePlusWindowsPluginCApiRegisterWithRegistrar

def UrlLauncherWindowsRegisterWithRegistrar :=
  ext.invoke .UrlLauncherWindowsRegisterWithRegistrar

/-- The function `RegisterPlugins` of the source, lines 21 to 44.  The argument
of each call is evaluated before the call, as in C++. -/
def RegisterPlugins (registry : PluginRegistry σ) : Exec σ Unit := do
  AmplifyDbCommonPluginRegisterWithRegistrar ext
      (← registry.GetRegistrarForPlugin "AmplifyDbCommonPlugin")
  CloudFirestorePluginCApiRegisterWithRegistrar ext
      (← registry.GetRegistrarForPlugin "CloudFirestorePluginCApi")
  ConnectivityPlusWindowsPluginRegisterWithRegistrar ext
      (← registry.GetRegistrarForPlugin "ConnectivityPlusWindowsPlugin")
  FirebaseAuthPluginCApiRegisterWithRegistrar ext
      (← registry.GetRegistrarForPlugin "FirebaseAuthPluginCApi")
  FirebaseCorePluginCApiRegisterWithRegistrar ext
      (← registry.GetRegistrarForPlugin "FirebaseCorePluginCApi")
  FirebaseStoragePluginCApiRegisterWithRegistrar ext
      (← registry.GetRegistrarForPlugin "FirebaseStoragePluginCApi")
  FlutterTimezonePluginCApiRegisterWithRegistrar ext
      (← registry.GetRegistrarForPlugin "FlutterTimezonePluginCApi")
  GeolocatorWindowsRegisterWithRegistrar ext
      (← registry.GetRegistrarForPlugin "GeolocatorWindows")
  PermissionHandlerWindowsPluginRegisterWithRegistrar ext
      (← registry.GetRegistrarForPlugin "PermissionHandlerWindowsPlugin")
  SharePlusWindowsPluginCApiRegisterWithRegistrar ext
      (← registry.GetRegistrarForPlugin "SharePlusWindowsPluginCApi")
  UrlLauncherWindowsRegisterWithRegistrar ext
      (← registry.GetRegistrarForPlugin "UrlLauncherWindows")

/-- The events of one call of `RegisterPlugins` started on host state `s`. -/
def traceOf (registry : PluginRegistry σ) (s : σ) : List Event :=
  ((RegisterPlugins ext registry).run { host := s, trace := [] }).2.trace

/-- The host state left by one call of `RegisterPlugins`. -/
def hostAfter (registry : PluginRegistry σ) (s : σ) : σ :=
  ((RegisterPlugins ext registry).run { host := s, trace := [] }).2.host

/-- The events of two calls of `RegisterPlugins` in succession. -/
def traceOfTwice (registry : PluginRegistry σ) (s : σ) : List Event :=
  ((do RegisterPlugins ext registry; RegisterPlugins ext registry :
      Exec σ Unit).run { host := s, trace := [] }).2.trace

/-- The host state left by two calls of `RegisterPlugins` in succession. -/
def hostAfterTwice (registry : PluginRegistry σ) (s : σ) : σ :=
  ((do RegisterPlugins ext registry; RegisterPlugins ext registry :
      Exec σ Unit).run { host := s, trace := [] }).2.host

end Registrant

/-- The 22 calls of the source text, in program order. -/
def expectedCalls : List Call :=
  [ .GetRegistrarForPlugin "AmplifyDbCommonPlugin",
    .Register .AmplifyDbCommonPluginRegisterWithRegistrar,
    .GetRegistrarForPlugin "CloudFirestorePluginCApi",
    .Register .CloudFirestorePluginCApiRegisterWithRegistrar,
    .GetRegistrarForPlugin "ConnectivityPlusWindowsPlugin",
    .Register .ConnectivityPlusWindowsPluginRegisterWithRegistrar,
    .GetRegistrarForPlugin "FirebaseAuthPluginCApi",
    .Register .FirebaseAuthPluginCApiRegisterWithRegistrar,
    .GetRegistrarForPlugin "FirebaseCorePluginCApi",
    .Register .FirebaseCorePluginCApiRegisterWithRegistrar,
    .GetRegistrarForPlugin "FirebaseStoragePluginCApi",
    .Register .FirebaseStoragePluginCApiRegisterWithRegistrar,
    .GetRegistrarForPlugin "FlutterTimezonePluginCApi",
    .Register .FlutterTimezonePluginCApiRegisterWithRegistrar,
    .GetRegistrarForPlugin "GeolocatorWindows",
    .Register .GeolocatorWindowsRegisterWithRegistrar,
    .GetRegistrarForPlugin "PermissionHandlerWindowsPlugin",
    .Register .PermissionHandlerWindowsPluginRegisterWithRegistrar,
    .GetRegistrarForPlugin "SharePlusWindowsPluginCApi",
    .Register .SharePlusWindowsPluginCApiRegisterWithRegistrar,
    .GetRegistrarForPlugin "UrlLauncherWindows",
    .Register .UrlLauncherWindowsRegisterWithRegistrar ]

/-- The eleven statements of the source as pairs of the name requested and the
register function called, in program order. -/
def registrations : List (String × RegisterFn) :=
  [ ("AmplifyDbCommonPlugin", .AmplifyDbCommonPluginRegisterWithRegistrar),
    ("CloudFirestorePluginCApi", .CloudFirestorePluginCApiRegisterWithRegistrar),
    ("ConnectivityPlusWindowsPlugin", .ConnectivityPlusWindowsPluginRegisterWithRegistrar),
    ("FirebaseAuthPluginCApi", .FirebaseAuthPluginCApiRegisterWithRegistrar),
    ("FirebaseCorePluginCApi", .FirebaseCorePluginCApiRegisterWithRegistrar),
    ("FirebaseStoragePluginCApi", .FirebaseStoragePluginCApiRegisterWithRegistrar),
    ("FlutterTimezonePluginCApi", .FlutterTimezonePluginCApiRegisterWithRegistrar),
    ("GeolocatorWindows", .GeolocatorWindowsRegisterWithRegistrar),
    ("PermissionHandlerWindowsPlugin", .PermissionHandlerWindowsPluginRegisterWithRegistrar),
    ("SharePlusWindowsPluginCApi", .SharePlusWindowsPluginCApiRegisterWithRegistrar),
    ("UrlLauncherWindows", .UrlLauncherWindowsRegisterWithRegistrar) ]

/-- The trace in which the i-th pair of a table is a request answered with the
i-th handle of `vs`, followed at once by the register call given that same
handle. -/
def eventsWith :
    List (String × RegisterFn) → List FlutterDesktopPluginRegistrarRef → List Event
  | (name, fn) :: rest, v :: vs =>
      Event.GetRegistrarForPlugin name v :: Event.Register fn v :: eventsWith rest vs
  | _, _ => []

/-- The handles a registry returns when it is asked for the names of a table
in order, each answer being passed to the register function of its pair before
the next name is asked for. -/
def returnedHandles {σ : Type} (ext : Externals σ) (registry : PluginRegistry σ) :
    List (String × RegisterFn) → σ → List FlutterDesktopPluginRegistrarRef
  | [], _ => []
  | (name, fn) :: rest, s =>
      (registry.impl name s).1 ::
        returnedHandles ext registry rest (ext fn (registry.impl name s).1 (registry.impl name s).2)

/-- The calls of a table, handles forgotten. -/
def callsOf : List (String × RegisterFn) → List Call
  | [] => []
  | (name, fn) :: rest => Call.GetRegistrarForPlugin name :: Call.Register fn :: callsOf rest

/-- A registry that answers every request with the null handle. -/
def nullRegistry {σ : Type} : PluginRegistry σ where
  impl := fun _ s => (0, s)

/-- A registry over a counter that answers with the number of registrations
made so far; its first answer is the null handle. -/
def echoRegistry : PluginRegistry Nat where
  impl := fun _ n => (n, n)

/-- Register functions over a counter: each call adds one registration. -/
def countingExt : Externals Nat :=
  fun _ _ n => n + 1

/-- The seven kinds of plugin listed by the specification. -/
inductive PluginKind where
  | firebase
  | geolocation
  | permissions
  | connectivity
  | sharing
  | urlLaunching
  | timezone
  deriving DecidableEq, Repr

/-- Whether a name starts with a stem, character by character. -/
def startsWith (stem name : String) : Bool :=
  stem.toList.isPrefixOf name.toList

/-- The kind of a plugin name in the words of the specification: the Firebase
family is CloudFirestore, FirebaseAuth, FirebaseCore and FirebaseStorage; the
other six kinds are the geolocator, the permission handler, connectivity,
share, the URL launcher and the timezone plugin.  Any other name has no kind. -/
def specKindOf (name : String) : Option PluginKind :=
  if startsWith "CloudFirestore" name || startsWith "FirebaseAuth" name
      || startsWith "FirebaseCore" name || startsWith "FirebaseStorage" name then
    some .firebase
  else if startsWith "Geolocator" name then some .geolocation
  else if startsWith "PermissionHandler" name then some .permissions
  else if startsWith "Connectivity" name then some .connectivity
  else if startsWith "Share" name then some .sharing
  else if startsWith "UrlLauncher" name then some .urlLaunching
  else if startsWith "FlutterTimezone" name then some .timezone
  else none

/-- The bytes of the UTF-8 encoding of a string. -/
def utf8Bytes (s : String) : List Nat :=
  s.toUTF8.data.toList.map UInt8.toNat

/-- Strict lexicographic order on byte strings: the first differing byte
decides, and a proper initial segment comes first. -/
def bytesLt : List Nat → List Nat → Bool
  | [], [] => false
  | [], _ :: _ => true
  | _ :: _, [] => false
  | a :: as, b :: bs => a < b || (a == b && bytesLt as bs)

/-- A string with a given ending removed, when it has that ending. -/
def removeSuffix (ending s : String) : Option String :=
  if ending.toList.isSuffixOf s.toList then
    some (String.mk (s.toList.take (s.toList.length - ending.toList.length)))
  else none

section Helpers

variable {σ : Type} (ext : Externals σ) (registry : PluginRegistry σ)

theorem run_RegisterPlugins_split (w : World σ) :
    ((RegisterPlugins ext registry).run w).2.trace = w.trace ++ traceOf ext registry w.host ∧
    ((RegisterPlugins ext registry).run w).2.host = hostAfter ext registry w.host := by
  simp only [traceOf, hostAfter, RegisterPlugins, AmplifyDbCommonPluginRegisterWithRegistrar,
    CloudFirestorePluginCApiRegisterWithRegistrar,
    ConnectivityPlusWindowsPluginRegisterWithRegistrar,
    FirebaseAuthPluginCApiRegisterWithRegistrar,
    FirebaseCorePluginCApiRegisterWithRegistrar,
    FirebaseStoragePluginCApiRegisterWithRegistrar,
    FlutterTimezonePluginCApiRegisterWithRegistrar,
    GeolocatorWindowsRegisterWithRegistrar,
    PermissionHandlerWindowsPluginRegisterWithRegistrar,
    SharePlusWindowsPluginCApiRegisterWithRegistrar,
    UrlLauncherWindowsRegisterWithRegistrar,
    Externals.invoke, PluginRegistry.GetRegistrarForPlugin, StateT.run, bind, StateT.bind,
    List.append_assoc, List.cons_append, List.nil_append, and_self]

theorem traceOf_eq_eventsWith (s : σ) :
    traceOf ext registry s =
      eventsWith registrations (returnedHandles ext registry registrations s) := by
  simp only [traceOf, RegisterPlugins, AmplifyDbCommonPluginRegisterWithRegistrar,
    CloudFirestorePluginCApiRegisterWithRegistrar,
    ConnectivityPlusWindowsPluginRegisterWithRegistrar,
    FirebaseAuthPluginCApiRegisterWithRegistrar,
    FirebaseCorePluginCApiRegisterWithRegistrar,
    FirebaseStoragePluginCApiRegisterWithRegistrar,
    FlutterTimezonePluginCApiRegisterWithRegistrar,
    GeolocatorWindowsRegisterWithRegistrar,
    PermissionHandlerWindowsPluginRegisterWithRegistrar,
    SharePlusWindowsPluginCApiRegisterWithRegistrar,
    UrlLauncherWindowsRegisterWithRegistrar,
    Externals.invoke, PluginRegistry.GetRegistrarForPlugin, StateT.run, bind, StateT.bind,
    List.append_assoc, List.cons_append, List.nil_append, registrations, returnedHandles,
    eventsWith]

theorem map_call_eventsWith (l : List (String × RegisterFn)) (s : σ) :
    (eventsWith l (returnedHandles ext registry l s)).map Event.call = callsOf l := by
  induction l generalizing s with
  | nil => rfl
  | cons p rest ih =>
    obtain ⟨name, fn⟩ := p
    simp only [returnedHandles, eventsWith, List.map_cons, Event.call, callsOf, ih]

theorem requested_eventsWith (l : List (String × RegisterFn)) (s : σ) :
    (eventsWith l (returnedHandles ext registry l s)).filterMap Event.requested =
      l.map Prod.fst := by
  induction l generalizing s with
  | nil => rfl
  | cons p rest ih =>
    obtain ⟨name, fn⟩ := p
    simp [returnedHandles, eventsWith, Event.requested, ih]

theorem registered_eventsWith (l : List (String × RegisterFn)) (s : σ) :
    (eventsWith l (returnedHandles ext registry l s)).filterMap Event.registered =
      l.map Prod.snd := by
  induction l generalizing s with
  | nil => rfl
  | cons p rest ih =>
    obtain ⟨name, fn⟩ := p
    simp [returnedHandles, eventsWith, Event.registered, ih]

theorem length_eventsWith (l : List (String × RegisterFn)) (s : σ) :
    (eventsWith l (returnedHandles ext registry l s)).length = 2 * l.length := by
  induction l generalizing s with
  | nil => rfl
  | cons p rest ih =>
    obtain ⟨name, fn⟩ := p
    simp only [returnedHandles, eventsWith, List.length_cons, ih]
    omega

theorem callsOf_registrations : callsOf registrations = expectedCalls := rfl

theorem map_call_traceOf (s : σ) :
    (traceOf ext registry s).map Event.call = expectedCalls := by
  rw [traceOf_eq_eventsWith, map_call_eventsWith, callsOf_registrations]

theorem requested_traceOf (s : σ) :
    (traceOf ext registry s).filterMap Event.requested = registrations.map Prod.fst := by
  rw [traceOf_eq_eventsWith, requested_eventsWith]

theorem registered_traceOf (s : σ) :
    (traceOf ext registry s).filterMap Event.registered = registrations.map Prod.snd := by
  rw [traceOf_eq_eventsWith, registered_eventsWith]

theorem length_traceOf (s : σ) : (traceOf ext registry s).length = 22 := by
  rw [traceOf_eq_eventsWith, length_eventsWith]
  rfl

theorem traceOfTwice_eq (s : σ) :
    traceOfTwice ext registry s =
      traceOf ext registry s ++ traceOf ext registry (hostAfter ext registry s) := by
  have h1 := run_RegisterPlugins_split ext registry { host := s, trace := [] }
  have h2 := run_RegisterPlugins_split ext registry
    ((RegisterPlugins ext registry).run { host := s, trace := [] }).2
  simp only [List.nil_append] at h1
  rw [h1.1, h1.2] at h2
  exact h2.1

theorem hostAfterTwice_eq (s : σ) :
    hostAfterTwice ext registry s = hostAfter ext registry (hostAfter ext registry s) := by
  have h1 := run_RegisterPlugins_split ext registry { host := s, trace := [] }
  have h2 := run_RegisterPlugins_split ext registry
    ((RegisterPlugins ext registry).run { host := s, trace := [] }).2
  rw [h1.2] at h2
  exact h2.2

theorem returnedHandles_nullRegistry (l : List (String × RegisterFn)) (s : σ) :
    returnedHandles ext nullRegistry l s = List.replicate l.length 0 := by
  induction l generalizing s with
  | nil => rfl
  | cons p rest ih =>
    obtain ⟨name, fn⟩ := p
    simp only [returnedHandles, nullRegistry, List.length_cons, List.replicate_succ]
    exact congrArg _ (ih _)

theorem register_follows_request (l : List (String × RegisterFn))
    (vs : List FlutterDesktopPluginRegistrarRef) (i : Nat) (name : String)
    (v : FlutterDesktopPluginRegistrarRef)
    (h : (eventsWith l vs)[i]? = some (Event.GetRegistrarForPlugin name v)) :
    ∃ fn, (name, fn) ∈ l ∧ (eventsWith l vs)[i + 1]? = some (Event.Register fn v) := by
  induction l generalizing vs i with
  | nil => simp [eventsWith] at h
  | cons p rest ih =>
    obtain ⟨name0, fn0⟩ := p
    cases vs with
    | nil => simp [eventsWith] at h
    | cons v0 vs =>
      match i with
      | 0 =>
        simp only [eventsWith, List.getElem?_cons_zero, Option.some.injEq,
          Event.GetRegistrarForPlugin.injEq] at h
        obtain ⟨rfl, rfl⟩ := h
        exact ⟨fn0, List.mem_cons_self _ _, by simp [eventsWith]⟩
      | 1 => simp [eventsWith] at h
      | k + 2 =>
        simp only [eventsWith, List.getElem?_cons_succ] at h
        obtain ⟨fn, hmem, hnext⟩ := ih vs k h
        exact ⟨fn, List.mem_cons_of_mem _ hmem, by simpa [eventsWith] using hnext⟩

theorem request_precedes_register (l : List (String × RegisterFn))
    (vs : List FlutterDesktopPluginRegistrarRef) (k : Nat) (fn : RegisterFn)
    (r : FlutterDesktopPluginRegistrarRef)
    (h : (eventsWith l vs)[k]? = some (Event.Register fn r)) :
    ∃ j name, k = j + 1 ∧ (name, fn) ∈ l ∧
      (eventsWith l vs)[j]? = some (Event.GetRegistrarForPlugin name r) := by
  induction l generalizing vs k with
  | nil => simp [eventsWith] at h
  | cons p rest ih =>
    obtain ⟨name0, fn0⟩ := p
    cases vs with
    | nil => simp [eventsWith] at h
    | cons v0 vs =>
      match k with
      | 0 => simp [eventsWith] at h
      | 1 =>
        simp only [eventsWith, List.getElem?_cons_succ, List.getElem?_cons_zero,
          Option.some.injEq, Event.Register.injEq] at h
        obtain ⟨rfl, rfl⟩ := h
        exact ⟨0, name0, rfl, List.mem_cons_self _ _, by simp [eventsWith]⟩
      | k + 2 =>
        simp only [eventsWith, List.getElem?_cons_succ] at h
        obtain ⟨j, name, hj, hmem, hprev⟩ := ih vs k h
        exact ⟨j + 2, name, by omega, List.mem_cons_of_mem _ hmem,
          by simpa [eventsWith] using hprev⟩

theorem ident_of_registrations (p : String × RegisterFn) (h : p ∈ registrations) :
    removeSuffix "RegisterWithRegistrar" p.2.ident = some p.1 ∧
      p.2.ident = p.1 ++ "RegisterWithRegistrar" := by
  revert p
  decide

theorem traceOf_sample :
    traceOf countingExt echoRegistry 0 = eventsWith registrations (List.range 11) := by
  rw [traceOf_eq_eventsWith]
  rfl

end Helpers

section Claims

variable {σ : Type} (ext : Externals σ) (registry : PluginRegistry σ)

/-- C1: for every registry, every behaviour of the external register functions
and every host state, one call of `RegisterPlugins` makes exactly the 22 calls
of `expectedCalls` in that order: eleven registrar requests with the eleven
names in source order, each followed at once by the call of the register
function of that plugin. -/
theorem RegisterPlugins_trace_fixed (s : σ) :
    (traceOf ext registry s).map Event.call = expectedCalls ∧
    (traceOf ext registry s).length = 22 ∧
    (traceOf ext registry s).filterMap Event.requested =
      ["AmplifyDbCommonPlugin", "CloudFirestorePluginCApi", "ConnectivityPlusWindowsPlugin",
       "FirebaseAuthPluginCApi", "FirebaseCorePluginCApi", "FirebaseStoragePluginCApi",
       "FlutterTimezonePluginCApi", "GeolocatorWindows", "PermissionHandlerWindowsPlugin",
       "SharePlusWindowsPluginCApi", "UrlLauncherWindows"] ∧
    ((traceOf ext registry s).filterMap Event.registered).length = 11 := by
  refine ⟨map_call_traceOf ext registry s, length_traceOf ext registry s, ?_, ?_⟩
  · rw [requested_traceOf]; rfl
  · rw [registered_traceOf]; rfl

/-- C2, as stated, fails: `RegisterPlugins` requests a registrar for
"AmplifyDbCommonPlugin", a name that belongs to none of the seven kinds listed
by the specification. -/
theorem amplify_outside_listed_kinds :
    "AmplifyDbCommonPlugin" ∈ (traceOf countingExt echoRegistry 0).filterMap Event.requested ∧
    specKindOf "AmplifyDbCommonPlugin" = none := by
  refine ⟨?_, by decide⟩
  rw [requested_traceOf]
  decide

/-- C2, amended: every name `RegisterPlugins` passes to `GetRegistrarForPlugin`
is "AmplifyDbCommonPlugin" or belongs to one of the seven kinds listed by the
specification. -/
theorem requested_kind_or_amplify (s : σ) (name : String)
    (h : name ∈ (traceOf ext registry s).filterMap Event.requested) :
    name = "AmplifyDbCommonPlugin" ∨ (specKindOf name).isSome = true := by
  rw [requested_traceOf] at h
  revert name
  decide

theorem requested_kind_or_amplify_witness :
    "GeolocatorWindows" ∈ (traceOf countingExt echoRegistry 0).filterMap Event.requested ∧
    ("GeolocatorWindows" = "AmplifyDbCommonPlugin" ∨
      (specKindOf "GeolocatorWindows").isSome = true) :=
  have h : "GeolocatorWindows" ∈
      (traceOf countingExt echoRegistry 0).filterMap Event.requested := by
    rw [requested_traceOf]; decide
  ⟨h, requested_kind_or_amplify countingExt echoRegistry 0 "GeolocatorWindows" h⟩

/-- C3: `RegisterPlugins` handles no error.  The handle given to each register
function is the one the registry returned for the request made just before it,
whatever that handle is; with a registry that always answers null every
register function is called with null; and which register functions are called,
and in which order, is the same for every registry, every behaviour of the
register functions and every host state. -/
theorem RegisterPlugins_passes_registrar_through (s : σ) :
    traceOf ext registry s =
      eventsWith registrations (returnedHandles ext registry registrations s) ∧
    (returnedHandles ext registry registrations s).length = 11 ∧
    traceOf ext nullRegistry s = eventsWith registrations (List.replicate 11 0) ∧
    (traceOf ext registry s).filterMap Event.registered =
      [.AmplifyDbCommonPluginRegisterWithRegistrar,
       .CloudFirestorePluginCApiRegisterWithRegistrar,
       .ConnectivityPlusWindowsPluginRegisterWithRegistrar,
       .FirebaseAuthPluginCApiRegisterWithRegistrar,
       .FirebaseCorePluginCApiRegisterWithRegistrar,
       .FirebaseStoragePluginCApiRegisterWithRegistrar,
       .FlutterTimezonePluginCApiRegisterWithRegistrar,
       .GeolocatorWindowsRegisterWithRegistrar,
       .PermissionHandlerWindowsPluginRegisterWithRegistrar,
       .SharePlusWindowsPluginCApiRegisterWithRegistrar,
       .UrlLauncherWindowsRegisterWithRegistrar] ∧
    ∀ (τ : Type) (ext2 : Externals τ) (registry2 : PluginRegistry τ) (t : τ),
      (traceOf ext2 registry2 t).map Event.call = (traceOf ext registry s).map Event.call := by
  refine ⟨traceOf_eq_eventsWith ext registry s, rfl, ?_, ?_, ?_⟩
  · rw [traceOf_eq_eventsWith, returnedHandles_nullRegistry]; rfl
  · rw [registered_traceOf]; rfl
  · intro τ ext2 registry2 t
    rw [map_call_traceOf, map_call_traceOf]

/-- C4: the names passed to `GetRegistrarForPlugin` by one call of
`RegisterPlugins` are in strictly increasing byte-wise lexicographic order, so
no name is requested twice and no register function is called twice. -/
theorem requested_names_strictly_increasing (s : σ) :
    List.Pairwise (fun a b => bytesLt (utf8Bytes a) (utf8Bytes b) = true)
      ((traceOf ext registry s).filterMap Event.requested) ∧
    ((traceOf ext registry s).filterMap Event.requested).Nodup ∧
    ((traceOf ext registry s).filterMap Event.registered).Nodup := by
  rw [requested_traceOf, registered_traceOf]
  decide

/-- C5: whenever `RegisterPlugins` requests a registrar under a name, the next
call is the register function whose identifier is that name followed by
"RegisterWithRegistrar", and it receives the handle just returned; and every
register call is immediately preceded by the request made under its own name,
whose answer it receives. -/
theorem register_function_matches_name (s : σ) (i : Nat) (name : String)
    (v : FlutterDesktopPluginRegistrarRef)
    (h : (traceOf ext registry s)[i]? = some (Event.GetRegistrarForPlugin name v)) :
    (∃ fn, (traceOf ext registry s)[i + 1]? = some (Event.Register fn v) ∧
      removeSuffix "RegisterWithRegistrar" fn.ident = some name ∧
      fn.ident = name ++ "RegisterWithRegistrar") ∧
    (∀ (k : Nat) (fn : RegisterFn) (r : FlutterDesktopPluginRegistrarRef),
      (traceOf ext registry s)[k]? = some (Event.Register fn r) →
      ∃ j name2, k = j + 1 ∧
        (traceOf ext registry s)[j]? = some (Event.GetRegistrarForPlugin name2 r) ∧
        removeSuffix "RegisterWithRegistrar" fn.ident = some name2) := by
  rw [traceOf_eq_eventsWith] at h ⊢
  constructor
  · obtain ⟨fn, hmem, hnext⟩ := register_follows_request _ _ i name v h
    exact ⟨fn, hnext, ident_of_registrations (name, fn) hmem⟩
  · intro k fn r hk
    obtain ⟨j, name2, hj, hmem, hprev⟩ := request_precedes_register _ _ k fn r hk
    exact ⟨j, name2, hj, hprev, (ident_of_registrations (name2, fn) hmem).1⟩

theorem register_function_matches_name_witness :
    (traceOf countingExt echoRegistry 0)[14]? =
      some (Event.GetRegistrarForPlugin "GeolocatorWindows" 7) ∧
    (∃ fn, (traceOf countingExt echoRegistry 0)[15]? = some (Event.Register fn 7) ∧
      removeSuffix "RegisterWithRegistrar" fn.ident = some "GeolocatorWindows" ∧
      fn.ident = "GeolocatorWindows" ++ "RegisterWithRegistrar") ∧
    (∃ j name2, 15 = j + 1 ∧
      (traceOf countingExt echoRegistry 0)[j]? = some (Event.GetRegistrarForPlugin name2 7) ∧
      removeSuffix "RegisterWithRegistrar"
        RegisterFn.GeolocatorWindowsRegisterWithRegistrar.ident = some name2) :=
  have h : (traceOf countingExt echoRegistry 0)[14]? =
      some (Event.GetRegistrarForPlugin "GeolocatorWindows" 7) := by
    rw [traceOf_sample]; rfl
  have hk : (traceOf countingExt echoRegistry 0)[15]? =
      some (Event.Register .GeolocatorWindowsRegisterWithRegistrar 7) := by
    rw [traceOf_sample]; rfl
  have hc := register_function_matches_name countingExt echoRegistry 0 14
    "GeolocatorWindows" 7 h
  ⟨h, hc.1, hc.2 15 .GeolocatorWindowsRegisterWithRegistrar 7 hk⟩

/-- C6: `RegisterPlugins` has no guard against being called again.  Two calls
in succession produce the trace of one call followed by the trace of a call
started on the host state the first one left: the 22 calls of the source
twice over, 22 registrar requests and 22 register calls, each register
function called twice.  On a host that counts registrations one call leaves 11
and two calls leave 22, so the effect of the second call is not absorbed. -/
theorem RegisterPlugins_twice (s : σ) :
    traceOfTwice ext registry s =
      traceOf ext registry s ++ traceOf ext registry (hostAfter ext registry s) ∧
    (traceOfTwice ext registry s).map Event.call = expectedCalls ++ expectedCalls ∧
    ((traceOfTwice ext registry s).filterMap Event.requested).length = 22 ∧
    ((traceOfTwice ext registry s).filterMap Event.registered).length = 22 ∧
    (∀ fn : RegisterFn,
      ((traceOfTwice ext registry s).filterMap Event.registered).count fn = 2) ∧
    hostAfterTwice ext registry s = hostAfter ext registry (hostAfter ext registry s) ∧
    hostAfter countingExt echoRegistry 0 = 11 ∧
    hostAfterTwice countingExt echoRegistry 0 = 22 := by
  refine ⟨traceOfTwice_eq ext registry s, ?_, ?_, ?_, ?_, hostAfterTwice_eq ext registry s,
    ?_, ?_⟩
  · rw [traceOfTwice_eq, List.map_append, map_call_traceOf, map_call_traceOf]
  · rw [traceOfTwice_eq, List.filterMap_append, requested_traceOf, requested_traceOf]; rfl
  · rw [traceOfTwice_eq, List.filterMap_append, registered_traceOf, registered_traceOf]; rfl
  · rw [traceOfTwice_eq, List.filterMap_append, registered_traceOf, registered_traceOf]
    intro fn
    cases fn <;> decide
  · rfl
  · rw [hostAfterTwice_eq]; rfl

end Claims

end FlightLog
